import Mathlib

/-!
Shallow embedding of `src/app/page.tsx` (jam-magsuci/github-search).

The file contains two near-duplicate React components:
* the query variant (`GitHubRepoExplorer` using react-query, lines 54-238),
* the static variant (`GitHubRepoExplorer` using local state and the
  `dummyRepos` placeholder list, lines 330-496).

We model the component state, the event handlers (`handleSearch`,
`handleKeyPress`, the button's `disabled` guard), the fetch function
(`queryFn`), and the rendered output as a pure view structure.  JS
`Date.prototype.toLocaleDateString` formats in the environment's local
timezone, so `formatDate` takes the environment's UTC offset (in minutes,
local = UTC + offset) as an explicit parameter.
-/

namespace GitHubSearch

/-- The `GitHubRepo` record type of the query variant (page.tsx lines 18-32).
`description` and `language` are nullable in the API payload. -/
structure GitHubRepo where
  id : Nat
  name : String
  description : Option String
  language : Option String
  stargazers_count : Nat
  forks_count : Nat
  updated_at : String
  html_url : String
  topics : List String
  owner_login : String
  owner_avatar_url : String
deriving Repr, DecidableEq

/-- The `languageColors` table of the query variant (page.tsx lines 34-43). -/
def languageColors : List (String × String) :=
  [("TypeScript", "bg-blue-500"), ("JavaScript", "bg-yellow-500"),
   ("Python", "bg-green-500"), ("Shell", "bg-gray-500"),
   ("Go", "bg-cyan-500"), ("Rust", "bg-orange-500"),
   ("Java", "bg-red-500"), ("Cpp", "bg-purple-500")]

/-- The `languageColors` table of the static variant (page.tsx lines 321-328). -/
def languageColorsStatic : List (String × String) :=
  [("TypeScript", "bg-blue-500"), ("JavaScript", "bg-yellow-500"),
   ("Python", "bg-green-500"), ("Shell", "bg-gray-500"),
   ("Go", "bg-cyan-500"), ("Rust", "bg-orange-500")]

/-- JS `String.prototype.trim`: strip leading and trailing whitespace. -/
def jsTrim (s : String) : String :=
  String.mk (((s.data.dropWhile Char.isWhitespace).reverse.dropWhile
    Char.isWhitespace).reverse)

/-- JS `v || dflt` on a possibly-null string: `null`/`undefined` and the
empty string are falsy and yield the default. -/
def jsOrString (v : Option String) (dflt : String) : String :=
  match v with
  | none => dflt
  | some s => if s = "" then dflt else s

/-- `languageColors[lang] || "bg-gray-400"` (page.tsx lines 190 and 448):
an object-key lookup that falls back to the neutral color. -/
def languageColor (table : List (String × String)) (lang : String) : String :=
  jsOrString (table.lookup lang) "bg-gray-400"

/-- Split a character list on a separator character (used to model the
field structure of ISO-8601 timestamp strings). -/
def splitOnChar (c : Char) : List Char → List (List Char)
  | [] => [[]]
  | a :: rest =>
    if a = c then [] :: splitOnChar c rest
    else
      match splitOnChar c rest with
      | [] => [[a]]
      | g :: gs => (a :: g) :: gs

/-- Decimal digit value of a character, `none` when not a digit. -/
def digitVal (c : Char) : Option Nat :=
  if c.isDigit then some (c.toNat - 48) else none

/-- Parse a nonempty all-digit character list as a natural number. -/
def digitsToNat : List Char → Option Nat
  | [] => none
  | l =>
    l.foldl (fun acc c => acc.bind (fun n => (digitVal c).map (fun d => n * 10 + d)))
      (some 0)

/-- Days from civil date (proleptic Gregorian, epoch 1970-01-01), the
conversion underlying JS `Date` timestamp arithmetic. -/
def daysFromCivil (y m d : Int) : Int :=
  let y2 := if m ≤ 2 then y - 1 else y
  let era := Int.fdiv y2 400
  let yoe := y2 - era * 400
  let mp := if m > 2 then m - 3 else m + 9
  let doy := (153 * mp + 2) / 5 + d - 1
  let doe := yoe * 365 + yoe / 4 - yoe / 100 + doy
  era * 146097 + doe - 719468

/-- Civil date (year, month, day) from days since 1970-01-01. -/
def civilFromDays (z : Int) : Int × Int × Int :=
  let z2 := z + 719468
  let era := Int.fdiv z2 146097
  let doe := z2 - era * 146097
  let yoe := (doe - doe / 1460 + doe / 36524 - doe / 146096) / 365
  let y := yoe + era * 400
  let doy := doe - (365 * yoe + yoe / 4 - yoe / 100)
  let mp := (5 * doy + 2) / 153
  let d := doy - (153 * mp + 2) / 5 + 1
  let m := if mp < 10 then mp + 3 else mp - 9
  ((if m ≤ 2 then y + 1 else y), m, d)

/-- Parse `YYYY-MM-DD`. -/
def parseYMD (l : List Char) : Option (Int × Int × Int) :=
  match splitOnChar (Char.ofNat 45) l with
  | [ys, ms, ds] =>
    match digitsToNat ys, digitsToNat ms, digitsToNat ds with
    | some y, some m, some d =>
      if 1 ≤ m ∧ m ≤ 12 ∧ 1 ≤ d ∧ d ≤ 31 then
        some ((y : Int), (m : Int), (d : Int))
      else none
    | _, _, _ => none
  | _ => none

/-- Parse `HH:MM` or `HH:MM:SS` into hours and minutes.  Seconds are
validated but dropped: a sub-minute amount cannot move the rendered date
across a day boundary when the timezone offset is in whole minutes. -/
def parseHM (l : List Char) : Option (Int × Int) :=
  match splitOnChar (Char.ofNat 58) l with
  | [hs, ms] =>
    match digitsToNat hs, digitsToNat ms with
    | some hh, some mm => if hh < 24 ∧ mm < 60 then some ((hh : Int), (mm : Int)) else none
    | _, _ => none
  | [hs, ms, ss] =>
    match digitsToNat hs, digitsToNat ms, digitsToNat ss with
    | some hh, some mm, some s2 =>
      if hh < 24 ∧ mm < 60 ∧ s2 < 60 then some ((hh : Int), (mm : Int)) else none
    | _, _, _ => none
  | _ => none

/-- `new Date(s)` on an ISO-8601 string, down to minute precision: the
result is the wall-clock reading in minutes since the epoch together with
a flag telling whether that reading is UTC (date-only strings and strings
with a `Z` suffix are UTC; date-time strings without `Z` are local). -/
def parseJsDate (s : String) : Option (Int × Bool) :=
  match splitOnChar (Char.ofNat 84) s.data with
  | [dl] =>
    (parseYMD dl).map (fun ymd => (daysFromCivil ymd.1 ymd.2.1 ymd.2.2 * 1440, true))
  | [dl, tl] =>
    let tc := match tl.getLast? with
      | some c => if c = Char.ofNat 90 then (tl.dropLast, true) else (tl, false)
      | none => (tl, false)
    match parseYMD dl, parseHM tc.1 with
    | some ymd, some hm =>
      some (daysFromCivil ymd.1 ymd.2.1 ymd.2.2 * 1440 + hm.1 * 60 + hm.2, tc.2)
    | _, _ => none
  | _ => none

/-- The en-US abbreviated month names used by
`toLocaleDateString("en-US", { month: "short" })`. -/
def monthAbbrev (m : Int) : String :=
  (["Jan", "Feb", "Mar", "Apr", "May", "Jun", "Jul", "Aug", "Sep", "Oct",
    "Nov", "Dec"]).getD (m - 1).toNat ""

/-- `formatDate` (page.tsx lines 90-96 and 355-361):
`new Date(dateString).toLocaleDateString("en-US", { month: "short",
day: "numeric", year: "numeric" })`.  `toLocaleDateString` renders the
instant in the environment's local timezone, so the environment's UTC
offset in minutes (local = UTC + tzOffsetMin) is an explicit parameter. -/
def formatDate (tzOffsetMin : Int) (s : String) : String :=
  match parseJsDate s with
  | none => "Invalid Date"
  | some r =>
    let localMins := if r.2 then r.1 + tzOffsetMin else r.1
    let c := civilFromDays (Int.fdiv localMins 1440)
    monthAbbrev c.2.1 ++ " " ++ toString c.2.2 ++ ", " ++ toString c.1

/-- Insert thousands separators into a reversed digit list (model of
`Number.prototype.toLocaleString` for the star count). -/
def insertCommas : List Char → List Char
  | a :: b :: c :: d :: rest => a :: b :: c :: Char.ofNat 44 :: insertCommas (d :: rest)
  | l => l

/-- `n.toLocaleString()`: decimal digits grouped in threes with commas. -/
def toLocaleStringNat (n : Nat) : String :=
  String.mk (insertCommas (toString n).data.reverse).reverse

/-- The observable content of one rendered repository card
(page.tsx lines 154-212 and 414-470). -/
structure CardView where
  title : String
  description : String
  topicBadges : List String
  overflowBadge : Option String
  languageIndicator : Option (String × String)
  starsText : String
  forksText : String
  updatedText : String
deriving Repr, DecidableEq

/-- Card rendering of the query variant (page.tsx lines 154-212): one
`GitHubRepo` record mapped to its card.  The topics row renders
`repo.topics.slice(0, 3)` badges and, when `repo.topics.length > 3`, one
overflow badge `+{repo.topics.length - 3}`; the description falls back to
the fixed text when null or empty; the language dot renders only for a
truthy language and uses the color table with the neutral fallback. -/
def renderCard (tz : Int) (repo : GitHubRepo) : CardView :=
  { title := repo.name
    description := jsOrString repo.description "No description provided"
    topicBadges := repo.topics.take 3
    overflowBadge :=
      if repo.topics.length > 3 then some ("+" ++ toString (repo.topics.length - 3))
      else none
    languageIndicator :=
      match repo.language with
      | none => none
      | some l => if l = "" then none else some (languageColor languageColors l, l)
    starsText := toLocaleStringNat repo.stargazers_count
    forksText := toString repo.forks_count
    updatedText := "Updated " ++ formatDate tz repo.updated_at }

/-- The repository record shape of the static variant (the element type of
`dummyRepos`, page.tsx lines 252-319): all fields non-null strings. -/
structure StaticRepo where
  id : Nat
  name : String
  description : String
  language : String
  stars : Nat
  forks : Nat
  updated : String
  url : String
  topics : List String
deriving Repr, DecidableEq

/-- The fixed `dummyRepos` placeholder list (page.tsx lines 252-319). -/
def dummyRepos : List StaticRepo :=
  [{ id := 1, name := "awesome-react-components",
     description := "A curated list of awesome React components and libraries for building modern web applications",
     language := "TypeScript", stars := 2847, forks := 342, updated := "2024-01-15",
     url := "https://github.com/username/awesome-react-components",
     topics := ["react", "components", "ui", "typescript"] },
   { id := 2, name := "nextjs-dashboard",
     description := "A modern dashboard built with Next.js 14, featuring server components and app router",
     language := "JavaScript", stars := 1523, forks := 189, updated := "2024-01-12",
     url := "https://github.com/username/nextjs-dashboard",
     topics := ["nextjs", "dashboard", "react", "tailwind"] },
   { id := 3, name := "api-gateway-service",
     description := "Microservices API gateway built with Node.js and Express, featuring rate limiting and authentication",
     language := "JavaScript", stars := 892, forks := 156, updated := "2024-01-10",
     url := "https://github.com/username/api-gateway-service",
     topics := ["nodejs", "api", "microservices", "express"] },
   { id := 4, name := "ml-image-classifier",
     description := "Machine learning image classification model using TensorFlow and Python",
     language := "Python", stars := 634, forks := 78, updated := "2024-01-08",
     url := "https://github.com/username/ml-image-classifier",
     topics := ["python", "machine-learning", "tensorflow", "ai"] },
   { id := 5, name := "mobile-expense-tracker",
     description := "Cross-platform mobile app for expense tracking built with React Native",
     language := "TypeScript", stars := 445, forks := 67, updated := "2024-01-05",
     url := "https://github.com/username/mobile-expense-tracker",
     topics := ["react-native", "mobile", "typescript", "finance"] },
   { id := 6, name := "docker-dev-environment",
     description := "Docker compose setup for local development environment with multiple services",
     language := "Shell", stars := 289, forks := 45, updated := "2024-01-03",
     url := "https://github.com/username/docker-dev-environment",
     topics := ["docker", "devops", "development", "containers"] }]

/-- Card rendering of the static variant (page.tsx lines 414-470).  Unlike
the query variant, the description is rendered as-is with no fallback. -/
def renderCardStatic (tz : Int) (repo : StaticRepo) : CardView :=
  { title := repo.name
    description := repo.description
    topicBadges := repo.topics.take 3
    overflowBadge :=
      if repo.topics.length > 3 then some ("+" ++ toString (repo.topics.length - 3))
      else none
    languageIndicator :=
      if repo.language = "" then none
      else some (languageColor languageColorsStatic repo.language, repo.language)
    starsText := toLocaleStringNat repo.stars
    forksText := toString repo.forks
    updatedText := "Updated " ++ formatDate tz repo.updated }

/-- Component state of the query variant: the `username` and `searched`
`useState` hooks plus the observable fields of the `useQuery` result
(page.tsx lines 54-76). -/
structure QueryState where
  username : String
  searched : Bool
  isLoading : Bool
  isError : Bool
  errorMsg : Option String
  repos : Option (List GitHubRepo)
deriving Repr, DecidableEq

/-- The request URL built by `queryFn` (page.tsx line 69). -/
def reposUrl (u : String) : String :=
  "https://api.github.com/users/" ++ u ++ "/repos?sort=updated&per_page=100"

/-- `handleSearch` of the query variant (page.tsx lines 78-82): a no-op on
blank input, otherwise it sets `searched` and calls `refetch()`, which puts
the query in the fetching state; the second component is the URL of the
network request issued, `none` when no request is issued. -/
def handleSearch (s : QueryState) : QueryState × Option String :=
  if jsTrim s.username = "" then (s, none)
  else ({ s with searched := true, isLoading := true }, some (reposUrl s.username))

/-- `handleKeyPress` of the query variant (page.tsx lines 84-88): the Enter
key invokes `handleSearch`, any other key does nothing. -/
def handleKeyPress (key : String) (s : QueryState) : QueryState × Option String :=
  if key = "Enter" then handleSearch s else (s, none)

/-- The `disabled` condition of the search button (page.tsx line 121):
`isLoading || !username.trim()`. -/
def searchButtonIsDisabled (s : QueryState) : Bool :=
  s.isLoading || jsTrim s.username == ""

/-- Clicking the search button: a disabled button fires no click handler;
an enabled one runs `handleSearch` (page.tsx line 121). -/
def clickSearchButton (s : QueryState) : QueryState × Option String :=
  if searchButtonIsDisabled s then (s, none) else handleSearch s

/-- An HTTP response to the repository-listing request: the status code
and the decoded JSON body. -/
structure HttpResponse where
  status : Nat
  body : List GitHubRepo
deriving Repr, DecidableEq

/-- `Response.ok` of the fetch API: status in the 2xx range. -/
def respOk (r : HttpResponse) : Bool :=
  decide (200 ≤ r.status) && decide (r.status < 300)

/-- `queryFn` (page.tsx lines 67-74): blank usernames resolve to an empty
list without fetching; a non-ok response throws
`GitHub API error: {status}`; otherwise the body is returned. -/
def queryFn (username : String) (resp : HttpResponse) : Except String (List GitHubRepo) :=
  if jsTrim username = "" then Except.ok []
  else if respOk resp then Except.ok resp.body
  else Except.error ("GitHub API error: " ++ toString resp.status)

/-- Settling of the outstanding query: success stores the data, failure
stores the error message; either way loading ends.  The second component
is the follow-up request issued on settling, always `none`: the component
configures no automatic retry of its own (page.tsx lines 59-76). -/
def applyFetchResult (s : QueryState) (r : Except String (List GitHubRepo)) :
    QueryState × Option String :=
  match r with
  | Except.ok data =>
    ({ s with isLoading := false, isError := false, errorMsg := none,
              repos := some data }, none)
  | Except.error e =>
    ({ s with isLoading := false, isError := true, errorMsg := some e }, none)

/-- The Try Again button (page.tsx line 139): `refetch()` re-issues the
request for the current username and puts the query back in flight. -/
def clickRetry (s : QueryState) : QueryState × Option String :=
  ({ s with isLoading := true }, some (reposUrl s.username))

/-- The observable page content (page.tsx lines 98-237 and 363-495). -/
structure PageView where
  buttonDisabled : Bool
  buttonLabel : String
  readyToExplore : Bool
  spinner : Bool
  errorText : Option String
  retryButton : Bool
  cards : List CardView
  noReposPlaceholder : Bool
deriving Repr, DecidableEq

/-- Page rendering of the query variant (page.tsx lines 98-237): the
results section shows only after a search; it shows the spinner while
loading, else the error message with the Try Again button on error, else
the card grid, with the no-repositories placeholder exactly when the data
is the empty list. -/
def render (tz : Int) (s : QueryState) : PageView :=
  { buttonDisabled := searchButtonIsDisabled s
    buttonLabel := if s.isLoading then "Searching..." else "Search"
    readyToExplore := !s.searched
    spinner := s.searched && s.isLoading
    errorText :=
      if s.searched && !s.isLoading && s.isError then
        some ("Error fetching repositories: " ++ jsOrString s.errorMsg "Unknown error")
      else none
    retryButton := s.searched && !s.isLoading && s.isError
    cards :=
      if s.searched && !s.isLoading && !s.isError then
        (s.repos.getD []).map (renderCard tz)
      else []
    noReposPlaceholder :=
      s.searched && !s.isLoading && !s.isError &&
        (match s.repos with
         | some l => l.isEmpty
         | none => false) }

/-- Component state of the static variant: the four `useState` hooks
(page.tsx lines 331-334). -/
structure StaticState where
  username : String
  repos : List StaticRepo
  loading : Bool
  searched : Bool
deriving Repr, DecidableEq

/-- `handleSearch` of the static variant (page.tsx lines 336-347): a no-op
on blank input, otherwise it sets `loading` and `searched` and schedules
the simulated-delay timeout; the boolean tells whether a timeout (the
simulated fetch) was scheduled. -/
def handleSearchStatic (s : StaticState) : StaticState × Bool :=
  if jsTrim s.username = "" then (s, false)
  else ({ s with loading := true, searched := true }, true)

/-- `handleKeyPress` of the static variant (page.tsx lines 349-353). -/
def handleKeyPressStatic (key : String) (s : StaticState) : StaticState × Bool :=
  if key = "Enter" then handleSearchStatic s else (s, false)

/-- The search button of the static variant, `disabled` when
`loading || !username.trim()` (page.tsx line 386). -/
def clickSearchStatic (s : StaticState) : StaticState × Bool :=
  if s.loading || jsTrim s.username == "" then (s, false) else handleSearchStatic s

/-- Firing of the scheduled timeout (page.tsx lines 343-346): the repo
list becomes `dummyRepos` and loading ends, regardless of the username. -/
def timeoutFire (s : StaticState) : StaticState :=
  { s with repos := dummyRepos, loading := false }

/-- Page rendering of the static variant (page.tsx lines 363-495): no
error branch exists; after a completed search the cards of the stored
repo list show, with the placeholder exactly on an empty list. -/
def renderStatic (tz : Int) (s : StaticState) : PageView :=
  { buttonDisabled := s.loading || jsTrim s.username == ""
    buttonLabel := if s.loading then "Searching..." else "Search"
    readyToExplore := !s.searched
    spinner := s.searched && s.loading
    errorText := none
    retryButton := false
    cards :=
      if s.searched && !s.loading then s.repos.map (renderCardStatic tz) else []
    noReposPlaceholder := s.searched && !s.loading && s.repos.isEmpty }

/-- A query-variant state whose input is whitespace only. -/
def blankQueryState : QueryState :=
  { username := "   ", searched := false, isLoading := false, isError := false,
    errorMsg := none, repos := none }

/-- A static-variant state whose input is whitespace only. -/
def blankStaticState : StaticState :=
  { username := "   ", repos := [], loading := false, searched := false }

/-- A query-variant state with a fetch outstanding. -/
def loadingState : QueryState :=
  { username := "alice", searched := true, isLoading := true, isError := false,
    errorMsg := none, repos := none }

/-- A static-variant state with the simulated fetch outstanding. -/
def loadingStaticState : StaticState :=
  { username := "alice", repos := [], loading := true, searched := true }

/-- A query-variant state before any search. -/
def preSearchState : QueryState :=
  { username := "octocat", searched := false, isLoading := false, isError := false,
    errorMsg := none, repos := none }

/-- The first record of the two-repository example of spec section 8. -/
def repoA : GitHubRepo :=
  { id := 1, name := "a", description := some "first", language := some "TypeScript",
    stargazers_count := 5, forks_count := 0, updated_at := "2024-01-15T00:00:00Z",
    html_url := "https://github.com/u/a", topics := ["x"],
    owner_login := "u", owner_avatar_url := "https://example.org/u.png" }

/-- The second record of the two-repository example of spec section 8. -/
def repoB : GitHubRepo :=
  { id := 2, name := "b", description := none, language := none,
    stargazers_count := 0, forks_count := 2, updated_at := "2024-01-12T00:00:00Z",
    html_url := "https://github.com/u/b", topics := [],
    owner_login := "u", owner_avatar_url := "https://example.org/u.png" }

/-- A query-variant state after a successful fetch of two repositories. -/
def successTwoState : QueryState :=
  { username := "u", searched := true, isLoading := false, isError := false,
    errorMsg := none, repos := some [repoA, repoB] }

/-- A query-variant state after a successful fetch of zero repositories. -/
def emptySuccessState : QueryState :=
  { username := "u", searched := true, isLoading := false, isError := false,
    errorMsg := none, repos := some [] }

/-- A repository record with five topics. -/
def fiveTopicsRepo : GitHubRepo :=
  { id := 9, name := "five-topics", description := some "d", language := some "Go",
    stargazers_count := 1, forks_count := 1, updated_at := "2024-01-10T00:00:00Z",
    html_url := "https://github.com/u/five-topics",
    topics := ["t1", "t2", "t3", "t4", "t5"],
    owner_login := "u", owner_avatar_url := "https://example.org/u.png" }

/-- A query-variant repository record with a null description. -/
def noDescRepo : GitHubRepo :=
  { id := 10, name := "no-desc", description := none, language := none,
    stargazers_count := 0, forks_count := 0, updated_at := "2024-01-10T00:00:00Z",
    html_url := "https://github.com/u/no-desc", topics := [],
    owner_login := "u", owner_avatar_url := "https://example.org/u.png" }

/-- A static-variant repository record with an empty description. -/
def emptyDescStaticRepo : StaticRepo :=
  { id := 11, name := "no-desc", description := "", language := "TypeScript",
    stars := 0, forks := 0, updated := "2024-01-03",
    url := "https://github.com/u/no-desc", topics := [] }

/-- A static-variant state with username alice and no search yet. -/
def aliceStaticState : StaticState :=
  { username := "alice", repos := [], loading := false, searched := false }

/-- A static-variant state with username bob and no search yet. -/
def bobStaticState : StaticState :=
  { username := "bob", repos := [], loading := false, searched := false }

/-- A string with a nonempty left component of an append is nonempty. -/
theorem append_left_ne_empty (a b : String) (h : a ≠ "") : a ++ b ≠ "" := by
  intro hab
  apply h
  cases a with
  | mk da =>
    cases b with
    | mk db =>
      simp only [String.ext_iff] at hab ⊢
      have : da ++ db = [] := hab
      exact (List.append_eq_nil.mp this).1

/-- Every color stored in the query variant's `languageColors` table is a
nonempty string (hence truthy under the JS `||` fallback). -/
theorem languageColors_lookup_ne_empty (l : String) (c : String)
    (h : languageColors.lookup l = some c) : c ≠ "" := by
  simp only [languageColors, List.lookup] at h
  repeat' split at h
  all_goals first
    | (injection h with h2
       subst h2
       decide)
    | exact Option.noConfusion h

/-- Every color stored in the static variant's table is a nonempty string. -/
theorem languageColorsStatic_lookup_ne_empty (l : String) (c : String)
    (h : languageColorsStatic.lookup l = some c) : c ≠ "" := by
  simp only [languageColorsStatic, List.lookup] at h
  repeat' split at h
  all_goals first
    | (injection h with h2
       subst h2
       decide)
    | exact Option.noConfusion h

/-- C1: triggering search on blank or whitespace-only input, by button
click or Enter key in either variant, performs no fetch, changes no state
(in particular sets no loading state and leaves `searched` as it was), and
when no search has happened yet the ready-to-explore empty state stays
visible. -/
theorem c1_blank_input_trigger_is_noop (tz : Int) (s : QueryState) (t : StaticState)
    (hs : jsTrim s.username = "") (ht : jsTrim t.username = "") :
    clickSearchButton s = (s, none) ∧
    handleKeyPress "Enter" s = (s, none) ∧
    clickSearchStatic t = (t, false) ∧
    handleKeyPressStatic "Enter" t = (t, false) ∧
    (s.searched = false → (render tz s).readyToExplore = true) ∧
    (t.searched = false → (renderStatic tz t).readyToExplore = true) := by
  refine ⟨?_, ?_, ?_, ?_, ?_, ?_⟩
  · simp [clickSearchButton, searchButtonIsDisabled, hs]
  · simp [handleKeyPress, handleSearch, hs]
  · simp [clickSearchStatic, handleSearchStatic, ht]
  · simp [handleKeyPressStatic, handleSearchStatic, ht]
  · intro h
    simp [render, h]
  · intro h
    simp [renderStatic, h]

/-- C1 witness: the blank-input states satisfy the hypotheses and the
trigger is a no-op on them. -/
theorem c1_witness :
    clickSearchButton blankQueryState = (blankQueryState, none) ∧
    handleKeyPress "Enter" blankQueryState = (blankQueryState, none) ∧
    clickSearchStatic blankStaticState = (blankStaticState, false) ∧
    (render 0 blankQueryState).readyToExplore = true := by
  have h := c1_blank_input_trigger_is_noop 0 blankQueryState blankStaticState
    (by decide) (by decide)
  exact ⟨h.1, h.2.1, h.2.2.1, h.2.2.2.2.1 rfl⟩

/-- C2 counterexample: with a fetch outstanding (`isLoading = true`) and a
non-blank username, the Enter-key trigger is not prevented: it runs
`handleSearch`, which issues another fetch request. -/
theorem c2_counterexample :
    loadingState.isLoading = true ∧
    (handleKeyPress "Enter" loadingState).2 = some (reposUrl "alice") := by
  constructor
  · rfl
  · decide

/-- C2 (amended): while a fetch is outstanding the search button is
disabled and clicking it starts nothing, in both variants; the Enter-key
path, however, is guarded only against blank input, so pressing Enter with
a non-blank username during loading issues another fetch request. -/
theorem c2_button_disabled_during_loading (s : QueryState) (t : StaticState)
    (hs : s.isLoading = true) (ht : t.loading = true) :
    clickSearchButton s = (s, none) ∧
    clickSearchStatic t = (t, false) ∧
    (jsTrim s.username ≠ "" → (handleKeyPress "Enter" s).2 = some (reposUrl s.username)) := by
  refine ⟨?_, ?_, ?_⟩
  · simp [clickSearchButton, searchButtonIsDisabled, hs]
  · simp [clickSearchStatic, ht]
  · intro h
    simp [handleKeyPress, handleSearch, h]

/-- C2 witness: the loading states satisfy the hypotheses; the button is
inert and the Enter key still fetches. -/
theorem c2_witness :
    clickSearchButton loadingState = (loadingState, none) ∧
    clickSearchStatic loadingStaticState = (loadingStaticState, false) ∧
    (handleKeyPress "Enter" loadingState).2 = some (reposUrl loadingState.username) := by
  have h := c2_button_disabled_during_loading loadingState loadingStaticState rfl rfl
  exact ⟨h.1, h.2.1, h.2.2 (by decide)⟩

/-- C3: a non-2xx response makes `queryFn` fail with a message carrying
the status code; the settled query renders the error message and the Try
Again control, settling issues no automatic retry, and the Try Again
control re-issues the request URL for the same username. -/
theorem c3_non2xx_renders_error_and_retry (tz : Int) (s : QueryState)
    (resp : HttpResponse) (hu : jsTrim s.username ≠ "") (hr : respOk resp = false) :
    queryFn s.username resp = Except.error ("GitHub API error: " ++ toString resp.status) ∧
    (applyFetchResult (handleSearch s).1 (queryFn (handleSearch s).1.username resp)).2 = none ∧
    (render tz (applyFetchResult (handleSearch s).1
        (queryFn (handleSearch s).1.username resp)).1).errorText =
      some ("Error fetching repositories: " ++ ("GitHub API error: " ++ toString resp.status)) ∧
    (render tz (applyFetchResult (handleSearch s).1
        (queryFn (handleSearch s).1.username resp)).1).retryButton = true ∧
    (clickRetry (applyFetchResult (handleSearch s).1
        (queryFn (handleSearch s).1.username resp)).1).2 = some (reposUrl s.username) := by
  have hmsg : ("GitHub API error: " ++ toString resp.status) ≠ "" :=
    append_left_ne_empty _ _ (by decide)
  refine ⟨?_, ?_, ?_, ?_, ?_⟩
  · simp [queryFn, hu, hr]
  · simp [queryFn, handleSearch, applyFetchResult, hu, hr]
  · simp [queryFn, handleSearch, applyFetchResult, render, jsOrString, hu, hr, hmsg]
  · simp [queryFn, handleSearch, applyFetchResult, render, hu, hr]
  · simp [queryFn, handleSearch, applyFetchResult, clickRetry, hu, hr]

/-- C3 witness: a concrete 404 response for a concrete username fails with
the status in the message, renders the retry control, and retry re-issues
the same URL. -/
theorem c3_witness :
    queryFn "octocat" { status := 404, body := [] } =
      Except.error ("GitHub API error: " ++ toString 404) ∧
    (render 0 (applyFetchResult (handleSearch preSearchState).1
        (queryFn (handleSearch preSearchState).1.username { status := 404, body := [] })).1).retryButton
      = true ∧
    (clickRetry (applyFetchResult (handleSearch preSearchState).1
        (queryFn (handleSearch preSearchState).1.username { status := 404, body := [] })).1).2
      = some (reposUrl "octocat") := by
  have h := c3_non2xx_renders_error_and_retry 0 preSearchState
    { status := 404, body := [] } (by decide) (by decide)
  exact ⟨h.1, h.2.2.2.1, h.2.2.2.2⟩

/-- C4: after a successful fetch, the card grid is exactly the record
list mapped through the card renderer: one card per record, in the order
of the response list. -/
theorem c4_one_card_per_record_in_order (tz : Int) (s : QueryState)
    (rs : List GitHubRepo) (h1 : s.searched = true) (h2 : s.isLoading = false)
    (h3 : s.isError = false) (h4 : s.repos = some rs) :
    (render tz s).cards = rs.map (renderCard tz) ∧
    (render tz s).cards.length = rs.length ∧
    (∀ i (hi : i < rs.length), (render tz s).cards.get ⟨i, by
        rw [show (render tz s).cards = rs.map (renderCard tz) by
              simp [render, h1, h2, h3, h4]]
        simpa using hi⟩ = renderCard tz (rs.get ⟨i, hi⟩)) := by
  have hc : (render tz s).cards = rs.map (renderCard tz) := by
    simp [render, h1, h2, h3, h4]
  refine ⟨hc, by simp [hc], ?_⟩
  intro i hi
  simp [hc]

/-- C4 witness: the two-record example state renders exactly two cards,
the first being the card of the first record. -/
theorem c4_witness :
    (render 0 successTwoState).cards.length = 2 ∧
    (render 0 successTwoState).cards = [repoA, repoB].map (renderCard 0) := by
  have h := c4_one_card_per_record_in_order 0 successTwoState [repoA, repoB]
    rfl rfl rfl rfl
  exact ⟨by simpa using h.2.1, h.1⟩

/-- C5: a successful fetch with an empty repository list renders the
no-repositories placeholder, no cards, and no error message. -/
theorem c5_empty_result_placeholder (tz : Int) (s : QueryState)
    (h1 : s.searched = true) (h2 : s.isLoading = false) (h3 : s.isError = false)
    (h4 : s.repos = some []) :
    (render tz s).noReposPlaceholder = true ∧
    (render tz s).cards = [] ∧
    (render tz s).errorText = none ∧
    (render tz s).retryButton = false := by
  refine ⟨?_, ?_, ?_, ?_⟩ <;> simp [render, h1, h2, h3, h4]

/-- C5 witness: the concrete empty-success state shows the placeholder
and nothing else. -/
theorem c5_witness :
    (render 0 emptySuccessState).noReposPlaceholder = true ∧
    (render 0 emptySuccessState).cards = [] := by
  have h := c5_empty_result_placeholder 0 emptySuccessState rfl rfl rfl rfl
  exact ⟨h.1, h.2.1⟩

/-- C6: in both variants a card renders the first `min (T, 3)` topics as
badges, in order, and an overflow badge labeled `+` followed by `T - 3`
exactly when `T > 3`; in particular a repository with 5 topics renders 3
topic badges plus a `+2` badge. -/
theorem c6_topic_badges_and_overflow (tz : Int) (r : GitHubRepo) (t : StaticRepo) :
    (renderCard tz r).topicBadges = r.topics.take 3 ∧
    (renderCard tz r).topicBadges.length = min r.topics.length 3 ∧
    (renderCard tz r).overflowBadge =
      (if r.topics.length > 3 then some ("+" ++ toString (r.topics.length - 3))
       else none) ∧
    (renderCardStatic tz t).topicBadges = t.topics.take 3 ∧
    (renderCardStatic tz t).topicBadges.length = min t.topics.length 3 ∧
    (renderCardStatic tz t).overflowBadge =
      (if t.topics.length > 3 then some ("+" ++ toString (t.topics.length - 3))
       else none) ∧
    (renderCard 0 fiveTopicsRepo).topicBadges.length = 3 ∧
    (renderCard 0 fiveTopicsRepo).overflowBadge = some "+2" := by
  refine ⟨rfl, ?_, rfl, rfl, ?_, rfl, by decide, by decide⟩
  · simp [renderCard, Nat.min_comm]
  · simp [renderCardStatic, Nat.min_comm]

/-- C7: the language color lookup is total: languages absent from the
table (in either variant) map to the neutral `bg-gray-400`, and languages
present in the table map to the table's color. -/
theorem c7_language_color_total (l : String) :
    (languageColors.lookup l = none →
      languageColor languageColors l = "bg-gray-400") ∧
    (∀ c, languageColors.lookup l = some c →
      languageColor languageColors l = c) ∧
    (languageColorsStatic.lookup l = none →
      languageColor languageColorsStatic l = "bg-gray-400") ∧
    (∀ c, languageColorsStatic.lookup l = some c →
      languageColor languageColorsStatic l = c) := by
  refine ⟨?_, ?_, ?_, ?_⟩
  · intro h
    simp [languageColor, jsOrString, h]
  · intro c h
    simp [languageColor, jsOrString, h, languageColors_lookup_ne_empty l c h]
  · intro h
    simp [languageColor, jsOrString, h]
  · intro c h
    simp [languageColor, jsOrString, h, languageColorsStatic_lookup_ne_empty l c h]

/-- C7 witness: an unrecognized language yields the neutral fallback, a
table language yields its table color. -/
theorem c7_witness :
    languageColor languageColors "Brainfuck" = "bg-gray-400" ∧
    languageColor languageColors "TypeScript" = "bg-blue-500" := by
  exact ⟨(c7_language_color_total "Brainfuck").1 (by decide),
         (c7_language_color_total "TypeScript").2.1 "bg-blue-500" (by decide)⟩

/-- C8 (amended): `formatDate` renders every parseable timestamp as
en-US abbreviated month, numeric day, comma, numeric year — of the
instant converted to the environment's local timezone; the example
`2024-01-15T00:00:00Z` renders as `Jan 15, 2024` when the environment
offset is zero (UTC). -/
theorem c8_format_date_shape_and_utc_example (tz : Int) :
    (∀ s r, parseJsDate s = some r → ∃ y m d : Int,
      formatDate tz s = monthAbbrev m ++ " " ++ toString d ++ ", " ++ toString y) ∧
    formatDate 0 "2024-01-15T00:00:00Z" = "Jan 15, 2024" := by
  constructor
  · intro s r h
    obtain ⟨mins, u⟩ := r
    refine ⟨(civilFromDays (Int.fdiv (if u then mins + tz else mins) 1440)).1,
            (civilFromDays (Int.fdiv (if u then mins + tz else mins) 1440)).2.1,
            (civilFromDays (Int.fdiv (if u then mins + tz else mins) 1440)).2.2, ?_⟩
    simp [formatDate, h]
  · decide

/-- C8 witness: the example timestamp parses, so the shape statement
applies to it concretely. -/
theorem c8_witness :
    ∃ y m d : Int, formatDate 0 "2024-01-15T00:00:00Z" =
      monthAbbrev m ++ " " ++ toString d ++ ", " ++ toString y :=
  (c8_format_date_shape_and_utc_example 0).1 "2024-01-15T00:00:00Z"
    (28421280, true) (by decide)

/-- C8 counterexample: in an environment five hours behind UTC (offset
-300 minutes, e.g. the en-US default timezones in January), the example
timestamp renders as `Jan 14, 2024`, not `Jan 15, 2024`. -/
theorem c8_counterexample :
    formatDate (-300) "2024-01-15T00:00:00Z" = "Jan 14, 2024" ∧
    formatDate (-300) "2024-01-15T00:00:00Z" ≠ "Jan 15, 2024" := by
  decide

/-- C9 (amended): card rendering is a pure function of one repository
record; in the query variant an absent (null or empty) description
renders the fixed fallback text, while the static variant renders the
stored description unchanged, with no fallback. -/
theorem c9_description_fallback_query_only (tz : Int) (r : GitHubRepo)
    (t : StaticRepo) (h : r.description = none ∨ r.description = some "") :
    (renderCard tz r).description = "No description provided" ∧
    (renderCardStatic tz t).description = t.description := by
  constructor
  · rcases h with h | h <;> simp [renderCard, jsOrString, h]
  · rfl

/-- C9 witness: a record with a null description renders the fallback in
the query variant. -/
theorem c9_witness :
    (renderCard 0 noDescRepo).description = "No description provided" :=
  (c9_description_fallback_query_only 0 noDescRepo emptyDescStaticRepo
    (Or.inl rfl)).1

/-- C9 counterexample: in the static variant a record with an empty
description renders the empty description as-is, not the fallback text,
so the claimed fallback does not hold in both variants. -/
theorem c9_counterexample :
    (renderCardStatic 0 emptyDescStaticRepo).description = "" ∧
    (renderCardStatic 0 emptyDescStaticRepo).description ≠
      "No description provided" := by
  decide

/-- C10: in the static variant every completed search stores the fixed
six-record `dummyRepos` list, whatever non-blank username was typed: any
two non-blank usernames yield the identical repository list. -/
theorem c10_static_result_independent_of_username (s1 s2 : StaticState)
    (h1 : jsTrim s1.username ≠ "") (h2 : jsTrim s2.username ≠ "") :
    (handleSearchStatic s1).2 = true ∧
    (handleSearchStatic s2).2 = true ∧
    (timeoutFire (handleSearchStatic s1).1).repos = dummyRepos ∧
    (timeoutFire (handleSearchStatic s2).1).repos = dummyRepos ∧
    (timeoutFire (handleSearchStatic s1).1).repos =
      (timeoutFire (handleSearchStatic s2).1).repos ∧
    dummyRepos.length = 6 := by
  refine ⟨?_, ?_, rfl, rfl, rfl, rfl⟩
  · simp [handleSearchStatic, h1]
  · simp [handleSearchStatic, h2]

/-- C10 witness: the searches for alice and for bob complete with the
same fixed list. -/
theorem c10_witness :
    (timeoutFire (handleSearchStatic aliceStaticState).1).repos =
      (timeoutFire (handleSearchStatic bobStaticState).1).repos ∧
    (timeoutFire (handleSearchStatic aliceStaticState).1).repos = dummyRepos := by
  have h := c10_static_result_independent_of_username aliceStaticState
    bobStaticState (by decide) (by decide)
  exact ⟨h.2.2.2.2.1, h.2.2.1⟩

end GitHubSearch
